import Mathlib

/-!
Verification of the pystructurizr build-and-live-reload pipeline
(`pystructurizr/cli.py` and `pystructurizr/cli_helper.py`).

The CLI code is embedded shallowly:
* filesystem paths are lists of components (mirroring `pathlib.Path.parts`
  for relative paths: consecutive and trailing slashes collapse);
* the filesystem is a finite map from paths to file contents plus a list of
  existing directories;
* the generation child process is an exit code together with the result of
  `json.loads` on its decoded standard output (`Option JValue`, `none`
  meaning the output did not parse);
* the remote rendering service's answer is an HTTP status code and body;
* `click.echo` / `print` calls are collected as a list of printed lines.
-/

set_option autoImplicit false

namespace Pystructurizr

/-- A filesystem path, as its list of components (mirrors `pathlib.Path.parts`
for relative paths). -/
abbrev FPath := List String

/-- Split a string on a character (auxiliary for `parsePath`). -/
def splitSlashAux : List Char → List Char → List String
  | [], acc => [String.mk acc.reverse]
  | c :: rest, acc =>
    if c = '/' then String.mk acc.reverse :: splitSlashAux rest []
    else splitSlashAux rest (c :: acc)

/-- Parsing of a relative POSIX path string, as `Path(s)` does it: split on `/` and drop empty
components (pathlib collapses duplicate and trailing slashes). -/
def parsePath (s : String) : FPath :=
  (splitSlashAux s.data []).filter (fun c => decide (c ≠ ""))

/-- Rendering of a path, as `str(path)`: join the components with `/` (as pathlib renders a relative
path). -/
def renderPath : FPath → String
  | [] => ""
  | [c] => c
  | c :: rest => c ++ "/" ++ renderPath rest

/-- The replacement `view.replace(".", "_")` from `cli.py` line 83: the pattern is the single
character `.`, so the replacement is a character-wise map. -/
def dotsToUnderscores (s : String) : String :=
  String.mk (s.data.map (fun c => if c = '.' then '_' else c))

/-- Whether `tmp` is a path-prefix of `q` (so `q` denotes `tmp` itself or an entry
inside the directory `tmp`). -/
def underDir : FPath → FPath → Bool
  | [], _ => true
  | _, [] => false
  | t :: ts, q :: qs => if t = q then underDir ts qs else false

/-- First value bound to `k` in an association list of paths. -/
def assocLookup (k : FPath) : List (FPath × String) → Option String
  | [] => none
  | (p, v) :: rest => if p = k then some v else assocLookup k rest

/-- Membership test for a list of paths. -/
def listHas (l : List FPath) (p : FPath) : Bool :=
  l.any (fun d => decide (d = p))

/-- All ancestors of a path, innermost last: for `a/b/c` that is
`a`, `a/b`, `a/b/c`. These are the directories `Path.mkdir(parents=True)`
creates. -/
def ancestors (p : FPath) : List FPath :=
  (List.range p.length).map (fun i => p.take (i + 1))

/-- The filesystem: regular files with their contents, plus the set of
existing directories. -/
structure FS where
  files : List (FPath × String)
  dirs : List FPath

/-- Contents of the regular file at `p`, if any. -/
def FS.readFile (fs : FS) (p : FPath) : Option String :=
  assocLookup p fs.files

/-- Test `Path.is_file()`: `p` currently exists as a regular file. -/
def FS.isFile (fs : FS) (p : FPath) : Bool :=
  (fs.readFile p).isSome

/-- Whether `p` currently exists as a directory. -/
def FS.dirExists (fs : FS) (p : FPath) : Bool :=
  listHas fs.dirs p

/-- Drop every entry keyed by `p` from an association list of files. -/
def eraseKey (p : FPath) : List (FPath × String) → List (FPath × String)
  | [] => []
  | e :: rest => if e.1 = p then eraseKey p rest else e :: eraseKey p rest

/-- Write `content` to the file at `p`, overwriting any previous file of that
name. -/
def FS.writeFile (fs : FS) (p : FPath) (content : String) : FS :=
  ⟨(p, content) :: eraseKey p fs.files, fs.dirs⟩

/-- Delete the regular file at `p` (no-op when absent). -/
def FS.removeFile (fs : FS) (p : FPath) : FS :=
  ⟨eraseKey p fs.files, fs.dirs⟩

/-- Insert a directory if it is not already present. -/
def insertDir (ds : List FPath) (d : FPath) : List FPath :=
  if listHas ds d then ds else ds ++ [d]

/-- Directory creation `Path.mkdir(parents=True, exist_ok=True)` (`cli.py` line 87): create the
whole directory chain down to `p`; directories that already exist are left
alone and cause no error. -/
def FS.mkdirParents (fs : FS) (p : FPath) : FS :=
  ⟨fs.files, (ancestors p).foldl insertDir fs.dirs⟩

/-- The move `shutil.move(src, dst)` (`cli.py` line 90): the file's content appears at
`dst` and the source entry is gone. (A missing source raises in Python; the
pipeline only ever moves the artifact it has just rendered, so that case is
kept as the identity and excluded by hypotheses.) -/
def FS.move (fs : FS) (src dst : FPath) : FS :=
  match fs.readFile src with
  | none => fs
  | some c => (fs.removeFile src).writeFile dst c

/-- Cleanup of a `tempfile.TemporaryDirectory`: remove the directory `tmp` and
everything beneath it. -/
def FS.removeTree (fs : FS) (tmp : FPath) : FS :=
  ⟨fs.files.filter (fun e => !(underDir tmp e.1)),
   fs.dirs.filter (fun d => !(underDir tmp d))⟩

/-- No regular file and no directory of `fs` lies at or below `tmp`. -/
def FS.tmpCleared (fs : FS) (tmp : FPath) : Bool :=
  fs.files.all (fun e => !(underDir tmp e.1)) &&
  fs.dirs.all (fun d => !(underDir tmp d))

/-! ### JSON values (the result of `json.loads` on the child's output) -/

/-- A parsed JSON value, as `json.loads` produces it. -/
inductive JValue where
  | null : JValue
  | bool : Bool → JValue
  | num : Int → JValue
  | str : String → JValue
  | arr : List JValue → JValue
  | obj : List (String × JValue) → JValue

/-- Lookup of a key among the fields of a parsed JSON object. -/
def jAssoc : List (String × JValue) → String → Option JValue
  | [], _ => none
  | (k, v) :: rest, key => if k = key then some v else jAssoc rest key

/-- Subscription `result[key]` on a parsed JSON value: a field lookup when `result` is an
object (a `dict`); on any other value Python's subscription raises, which the
`none` result represents. -/
def JValue.getKey : JValue → String → Option JValue
  | .obj fields, key => jAssoc fields key
  | _, _ => none

/-! ### Code Generator Bridge (`cli_helper.generate_diagram_code_in_child_process`) -/

/-- Outcome of the generation child process: its exit code and the result of
`json.loads` on its decoded, stripped standard output (`none` when the output
is not valid JSON). -/
structure ChildResult where
  exitCode : Nat
  stdoutJson : Option JValue

/-- The failure modes of `generate_diagram_code_in_child_process`:
`subprocess.check_output` raising `CalledProcessError` on a non-zero exit,
`json.loads` raising on unparsable output, and `result[...]` raising
`KeyError`/`TypeError` when a field is unavailable. The spec groups them all
as `GenerationError`. -/
inductive GenerationError where
  | childProcessFailed : Nat → GenerationError
  | malformedOutput : GenerationError
  | missingField : String → GenerationError
deriving DecidableEq

/-- Function `cli_helper.generate_diagram_code_in_child_process` (lines 10-19): run the
child process (`subprocess.check_output` raises on non-zero exit), parse its
standard output with `json.loads`, and return
`result["code"], result["imported_modules"]`. -/
def generate_diagram_code_in_child_process (child : ChildResult) :
    Except GenerationError (JValue × JValue) :=
  if child.exitCode ≠ 0 then
    .error (.childProcessFailed child.exitCode)
  else
    match child.stdoutJson with
    | none => .error .malformedOutput
    | some result =>
      match result.getKey "code" with
      | none => .error (.missingField "code")
      | some code =>
        match result.getKey "imported_modules" with
        | none => .error (.missingField "imported_modules")
        | some modules => .ok (code, modules)

/-! ### Renderer Client (`cli_helper.generate_svg`) -/

/-- The remote rendering endpoint's HTTP response: status code and body
(`resp.text`; `resp.content` is its encoded form, non-empty iff the body is). -/
structure HttpResponse where
  status : Nat
  body : String

/-- Result of one `generate_svg` call: the lines printed, the filesystem
afterwards, and either the written file's path or the `ClickException`
message. -/
structure SvgResult where
  printed : List String
  fs : FS
  result : Except String FPath

/-- Function `cli_helper.generate_svg` (lines 22-37): POST the diagram code to the
rendering endpoint; on a non-200 status print the response (its library repr)
and, when non-empty, its body, then raise `ClickException("Failed to create
diagram")`; on 200 write the body to `{tmp_folder}/diagram.svg` and return
that path. -/
def generate_svg (resp : HttpResponse) (tmpFolder : FPath) (fs : FS) : SvgResult :=
  if resp.status ≠ 200 then
    { printed := ["<Response [" ++ toString resp.status ++ "]>"] ++
        (if resp.body ≠ "" then [resp.body] else []),
      fs := fs,
      result := .error "Failed to create diagram" }
  else
    let svgFilePath := tmpFolder ++ ["diagram.svg"]
    { printed := [],
      fs := fs.writeFile svgFilePath resp.body,
      result := .ok svgFilePath }

/-! ### Output Placer and Pipeline Orchestrator (`cli.build`, `cli.dev`) -/

/-- Destination resolution of `cli.build` (lines 76-84): when `file_path`
currently exists as a regular file the artifact replaces it in place and the
base directory is its parent; otherwise `file_path` names a directory and the
file name is the view identifier with dots replaced by underscores plus
`.svg`. Returns `(base_dir, svg_file_path)`. -/
def resolveDest (fs : FS) (view : String) (dest : FPath) : FPath × FPath :=
  if fs.isFile dest then
    (dest.dropLast, dest)
  else
    (dest, dest ++ [dotsToUnderscores view ++ ".svg"])

/-- The place step of `cli.build` (lines 76-90): resolve the destination,
`mkdir(parents=True, exist_ok=True)` the base directory, and
`shutil.move` the rendered artifact to the resolved path. Returns the
filesystem afterwards and the resolved path. -/
def placeArtifact (fs : FS) (view : String) (artifact : FPath) (dest : FPath) :
    FS × FPath :=
  ((fs.mkdirParents (resolveDest fs view dest).1).move artifact
      (resolveDest fs view dest).2,
   (resolveDest fs view dest).2)

/-- An error aborting a pipeline run: a `GenerationError` from the child
process or the `ClickException` raised by `generate_svg`. -/
inductive BuildError where
  | genError : GenerationError → BuildError
  | renderError : String → BuildError
deriving DecidableEq

/-- Outcome of one `build` invocation: printed lines, the filesystem at exit,
the click context object (`ctx.obj`) left for chained subcommands, and the
error, if the run aborted. -/
structure BuildOutcome where
  printed : List String
  fs : FS
  ctxObj : List (String × String)
  err : Option BuildError

/-- The body of `cli.build`'s `async_behavior` (lines 69-94), run inside the
temporary directory `tmp`: generate the diagram code in a child process,
render it to `{tmp}/diagram.svg`, resolve the destination, create the base
directory, move the artifact there, record the resolved path in `ctx.obj`
and echo it. An exception at any step aborts the rest of the body. -/
def buildAsyncBehavior (view filePath : String) (child : ChildResult)
    (resp : HttpResponse) (tmp : FPath) (fs : FS) : BuildOutcome :=
  match generate_diagram_code_in_child_process child with
  | .error e => ⟨[], fs, [], some (.genError e)⟩
  | .ok _ =>
    let svgRes := generate_svg resp tmp fs
    match svgRes.result with
    | .error msg => ⟨svgRes.printed, svgRes.fs, [], some (.renderError msg)⟩
    | .ok tempSvgFilePath =>
      let placed := placeArtifact svgRes.fs view tempSvgFilePath (parsePath filePath)
      ⟨svgRes.printed ++ [renderPath placed.2], placed.1,
        [("svg_file_path", renderPath placed.2)], none⟩

/-- Command `cli.build` (lines 61-96): `with tempfile.TemporaryDirectory()` creates
the fresh directory `tmp`, the async body runs inside it, and the directory
is removed in full when the `with` block exits — normally or through an
exception. -/
def build (view filePath : String) (child : ChildResult) (resp : HttpResponse)
    (tmp : FPath) (fs : FS) : BuildOutcome :=
  let acquired := FS.mkdirParents fs tmp
  let out := buildAsyncBehavior view filePath child resp tmp acquired
  { out with fs := out.fs.removeTree tmp }

/-- One cycle of `cli.dev`'s loop (`async_behavior`, lines 41-45): generate
the diagram code, then render it into the temporary folder. The loop ends
when the run is cancelled externally (the input list is exhausted) or an
exception propagates out of a cycle. -/
def devLoop (cycles : List (ChildResult × HttpResponse)) (tmp : FPath)
    (fs : FS) : FS × Option BuildError :=
  match cycles with
  | [] => (fs, none)
  | (child, resp) :: rest =>
    match generate_diagram_code_in_child_process child with
    | .error e => (fs, some (.genError e))
    | .ok _ =>
      let svgRes := generate_svg resp tmp fs
      match svgRes.result with
      | .error msg => (svgRes.fs, some (.renderError msg))
      | .ok _ => devLoop rest tmp svgRes.fs

/-- Command `cli.dev` (lines 34-54): `with tempfile.TemporaryDirectory()` creates the
fresh directory `tmp`, `index.html` is copied into it, the
generate-render loop runs against it, and the directory is removed in full
when the `with` block exits, whether the loop ended by cancellation or by an
exception. -/
def dev (indexHtml : String) (cycles : List (ChildResult × HttpResponse))
    (tmp : FPath) (fs : FS) : FS × Option BuildError :=
  let acquired := FS.mkdirParents fs tmp
  let copied := acquired.writeFile (tmp ++ ["index.html"]) indexHtml
  let looped := devLoop cycles tmp copied
  (looped.1.removeTree tmp, looped.2)

/-! ### Upload Step (`cli.upload`) -/

/-- Command `cli.upload` (lines 107-117): read `ctx.obj["svg_file_path"]` — a missing
entry raises (`KeyError`, or `TypeError` when no build step ever populated
`ctx.obj`), failing before any collaborator call — then hand exactly that
path to the cloud-storage uploader, which returns the file's URL. -/
def upload (ctxObj : List (String × String)) (uploadFile : String → String) :
    Except String String :=
  match ctxObj.lookup "svg_file_path" with
  | none => .error "svg_file_path not populated by a prior build step"
  | some svgFilePath => .ok (uploadFile svgFilePath)

/-! ### Helper lemmas about the filesystem model -/

theorem assocLookup_eraseKey_ne (q p : FPath) (h : q ≠ p) (l : List (FPath × String)) :
    assocLookup q (eraseKey p l) = assocLookup q l := by
  induction l with
  | nil => rfl
  | cons e rest ih =>
    by_cases hp : e.1 = p
    · have hq : e.1 ≠ q := fun hh => h (hh ▸ hp)
      rw [eraseKey, if_pos hp, ih, assocLookup, if_neg hq]
    · rw [eraseKey, if_neg hp]
      by_cases hq : e.1 = q
      · rw [assocLookup, if_pos hq, assocLookup, if_pos hq]
      · rw [assocLookup, if_neg hq, assocLookup, if_neg hq, ih]

theorem assocLookup_eraseKey_self (p : FPath) (l : List (FPath × String)) :
    assocLookup p (eraseKey p l) = none := by
  induction l with
  | nil => rfl
  | cons e rest ih =>
    by_cases hp : e.1 = p
    · rw [eraseKey, if_pos hp, ih]
    · rw [eraseKey, if_neg hp, assocLookup, if_neg hp, ih]

theorem FS.readFile_writeFile (fs : FS) (p q : FPath) (c : String) :
    (fs.writeFile p c).readFile q = if p = q then some c else fs.readFile q := by
  unfold FS.writeFile FS.readFile
  by_cases h : p = q
  · rw [if_pos h, assocLookup, if_pos h]
  · rw [if_neg h, assocLookup, if_neg h,
      assocLookup_eraseKey_ne q p (fun hh => h hh.symm)]

theorem FS.isFile_writeFile (fs : FS) (p q : FPath) (c : String) :
    (fs.writeFile p c).isFile q = if p = q then true else fs.isFile q := by
  unfold FS.isFile
  rw [FS.readFile_writeFile]
  by_cases h : p = q <;> simp [h]

theorem FS.readFile_removeFile_self (fs : FS) (p : FPath) :
    (fs.removeFile p).readFile p = none := by
  unfold FS.removeFile FS.readFile
  exact assocLookup_eraseKey_self p fs.files

theorem FS.readFile_mkdirParents (fs : FS) (p q : FPath) :
    (fs.mkdirParents p).readFile q = fs.readFile q := rfl

theorem FS.isFile_mkdirParents (fs : FS) (p q : FPath) :
    (fs.mkdirParents p).isFile q = fs.isFile q := rfl

theorem underDir_append (tmp rest : FPath) : underDir tmp (tmp ++ rest) = true := by
  induction tmp with
  | nil => simp [underDir]
  | cons t ts ih => simp [underDir, ih]

theorem FS.move_spec (fs : FS) (src dst : FPath) (c : String)
    (h : fs.readFile src = some c) (hne : src ≠ dst) :
    (fs.move src dst).readFile dst = some c ∧ (fs.move src dst).readFile src = none := by
  unfold FS.move
  rw [h]
  constructor
  · rw [FS.readFile_writeFile]
    simp
  · rw [FS.readFile_writeFile]
    rw [if_neg (fun hh => hne hh.symm)]
    exact FS.readFile_removeFile_self fs src

theorem FS.dirs_writeFile (fs : FS) (p : FPath) (c : String) :
    (fs.writeFile p c).dirs = fs.dirs := rfl

theorem FS.dirs_move (fs : FS) (src dst : FPath) :
    (fs.move src dst).dirs = fs.dirs := by
  unfold FS.move
  cases h : fs.readFile src <;> rfl

theorem all_filter_self {α : Type} (p : α → Bool) (l : List α) :
    (l.filter p).all p = true := by
  induction l with
  | nil => rfl
  | cons a l ih =>
    by_cases h : p a
    · simp [List.filter_cons, h, List.all_cons, ih]
    · simp [List.filter_cons, h, ih]

theorem FS.tmpCleared_removeTree (fs : FS) (tmp : FPath) :
    (fs.removeTree tmp).tmpCleared tmp = true := by
  unfold FS.removeTree FS.tmpCleared
  simp only [Bool.and_eq_true]
  exact ⟨all_filter_self _ _, all_filter_self _ _⟩

theorem listHas_iff {l : List FPath} {p : FPath} : listHas l p = true ↔ p ∈ l := by
  unfold listHas
  simp

theorem listHas_insertDir_self (ds : List FPath) (d : FPath) :
    listHas (insertDir ds d) d = true := by
  rw [listHas_iff]
  unfold insertDir
  by_cases h : listHas ds d
  · rw [if_pos h]
    exact listHas_iff.mp h
  · rw [if_neg h]
    exact List.mem_append.mpr (Or.inr (List.mem_singleton.mpr rfl))

theorem listHas_insertDir_mono (ds : List FPath) (d x : FPath)
    (h : listHas ds x = true) : listHas (insertDir ds d) x = true := by
  rw [listHas_iff]
  unfold insertDir
  by_cases hd : listHas ds d
  · rw [if_pos hd]
    exact listHas_iff.mp h
  · rw [if_neg hd]
    exact List.mem_append.mpr (Or.inl (listHas_iff.mp h))

theorem listHas_foldl_insertDir_mono (l : List FPath) :
    ∀ (ds : List FPath) (x : FPath), listHas ds x = true →
      listHas (l.foldl insertDir ds) x = true := by
  induction l with
  | nil => exact fun ds x h => h
  | cons d l ih =>
    intro ds x h
    rw [List.foldl_cons]
    exact ih _ x (listHas_insertDir_mono ds d x h)

theorem listHas_foldl_insertDir_mem (l : List FPath) :
    ∀ (ds : List FPath) (x : FPath), x ∈ l →
      listHas (l.foldl insertDir ds) x = true := by
  induction l with
  | nil => exact fun ds x hx => absurd hx (List.not_mem_nil x)
  | cons d l ih =>
    intro ds x hx
    rw [List.foldl_cons]
    rcases List.mem_cons.mp hx with h | h
    · subst h
      exact listHas_foldl_insertDir_mono l _ x (listHas_insertDir_self ds x)
    · exact ih _ x h

theorem foldl_insertDir_id (l ds : List FPath)
    (h : ∀ d ∈ l, listHas ds d = true) : l.foldl insertDir ds = ds := by
  induction l with
  | nil => rfl
  | cons d l ih =>
    rw [List.foldl_cons]
    have hins : insertDir ds d = ds := by
      unfold insertDir
      rw [if_pos (h d (List.mem_cons_self d l))]
    rw [hins]
    exact ih (fun d' hd' => h d' (List.mem_cons_of_mem _ hd'))

theorem FS.mkdirParents_idem (fs : FS) (p : FPath) :
    (fs.mkdirParents p).mkdirParents p = fs.mkdirParents p := by
  unfold FS.mkdirParents
  congr 1
  exact foldl_insertDir_id _ _ (fun d hd => listHas_foldl_insertDir_mem _ _ _ hd)

theorem FS.dirExists_mkdirParents (fs : FS) (p d : FPath) (hd : d ∈ ancestors p) :
    (fs.mkdirParents p).dirExists d = true := by
  unfold FS.dirExists FS.mkdirParents
  exact listHas_foldl_insertDir_mem _ _ _ hd

theorem self_mem_ancestors (p : FPath) (h : p ≠ []) : p ∈ ancestors p := by
  unfold ancestors
  have hlen : 0 < p.length := List.length_pos.mpr h
  refine List.mem_map.mpr ⟨p.length - 1, List.mem_range.mpr (by omega), ?_⟩
  rw [Nat.sub_add_cancel hlen, List.take_length]

theorem FS.dirExists_move (fs : FS) (src dst d : FPath) :
    (fs.move src dst).dirExists d = fs.dirExists d := by
  unfold FS.dirExists
  rw [FS.dirs_move]

/-! ### The claims -/

/-- C2: `generate_svg` raises its render error exactly when the HTTP status is
not 200. On failure it leaves the filesystem untouched (zero files written
into the work directory) and surfaces a non-empty response body among the
printed diagnostics; on success it returns the fixed-name path
`{workDir}/diagram.svg`, the response body is stored there verbatim, and
every other path — in the work directory or elsewhere — is unchanged, so a
prior file of that name is overwritten and exactly one file is written. -/
theorem generate_svg_error_handling (resp : HttpResponse) (tmp : FPath) (fs : FS) :
    ((∃ p, (generate_svg resp tmp fs).result = .ok p) ↔ resp.status = 200) ∧
    (resp.status ≠ 200 →
      (generate_svg resp tmp fs).fs = fs ∧
      (resp.body ≠ "" → resp.body ∈ (generate_svg resp tmp fs).printed)) ∧
    (resp.status = 200 →
      (generate_svg resp tmp fs).result = .ok (tmp ++ ["diagram.svg"]) ∧
      (generate_svg resp tmp fs).fs.readFile (tmp ++ ["diagram.svg"]) = some resp.body ∧
      ∀ q, q ≠ tmp ++ ["diagram.svg"] →
        (generate_svg resp tmp fs).fs.readFile q = fs.readFile q) := by
  unfold generate_svg
  by_cases h : resp.status = 200
  · rw [if_neg (by simp [h])]
    refine ⟨⟨fun _ => h, fun _ => ⟨tmp ++ ["diagram.svg"], rfl⟩⟩,
      fun hh => absurd h hh, fun _ => ⟨rfl, ?_, ?_⟩⟩
    · rw [FS.readFile_writeFile, if_pos rfl]
    · intro q hq
      rw [FS.readFile_writeFile, if_neg (fun hh => hq hh.symm)]
  · rw [if_pos h]
    refine ⟨⟨fun hp => ?_, fun hh => absurd hh h⟩,
      fun _ => ⟨rfl, fun hb => ?_⟩, fun hh => absurd hh h⟩
    · obtain ⟨p, hp⟩ := hp
      exact absurd hp (by simp)
    · rw [if_pos hb]
      simp

/-- C2 witness: a 500 response with body `bad syntax` leaves the filesystem
untouched and surfaces the body among the diagnostics, while a 200 response
yields the fixed-name artifact path. -/
theorem generate_svg_error_handling_witness :
    ((generate_svg ⟨500, "bad syntax"⟩ ["tmp123"] ⟨[], []⟩).fs = ⟨[], []⟩ ∧
      "bad syntax" ∈ (generate_svg ⟨500, "bad syntax"⟩ ["tmp123"] ⟨[], []⟩).printed) ∧
    (generate_svg ⟨200, "<svg/>"⟩ ["tmp123"] ⟨[], []⟩).result =
      .ok (["tmp123"] ++ ["diagram.svg"]) := by
  refine ⟨?_, ((generate_svg_error_handling ⟨200, "<svg/>"⟩ ["tmp123"] ⟨[], []⟩).2.2 rfl).1⟩
  have h := (generate_svg_error_handling ⟨500, "bad syntax"⟩ ["tmp123"] ⟨[], []⟩).2.1
    (by decide)
  exact ⟨h.1, h.2 (by decide)⟩

/-- The claim's notion of a well-formed child output: parsed structured data
holding a code blob under `"code"` and a list of module identifier strings
under `"imported_modules"` (this formalizes the claim's wording, to be
compared with what the code checks). -/
def specWellFormedOutput (v : JValue) : Bool :=
  match v.getKey "code", v.getKey "imported_modules" with
  | some _, some (.arr ms) =>
    ms.all (fun m => match m with | .str _ => true | _ => false)
  | _, _ => false

/-- C3 counterexample: with exit code 0 and output
`{"code": "c", "imported_modules": 0}` — not well-formed in the claim's
sense, as `0` is no list of module identifiers — the call nevertheless
succeeds and returns the number unchanged, so the claimed failure condition
does not hold of the code. -/
theorem generate_accepts_non_list_modules :
    generate_diagram_code_in_child_process
        ⟨0, some (.obj [("code", .str "c"), ("imported_modules", .num 0)])⟩ =
      .ok (.str "c", .num 0) ∧
    specWellFormedOutput
        (.obj [("code", .str "c"), ("imported_modules", .num 0)]) = false :=
  ⟨rfl, rfl⟩

/-- C3 (amended): `generate_diagram_code_in_child_process` fails exactly when
the child process exits non-zero, its output does not parse as JSON, or the
parsed value does not offer both the keys `code` and `imported_modules`;
otherwise it returns the two values stored under those keys (their types are
not validated). -/
theorem generate_error_iff (child : ChildResult) :
    ((∃ e, generate_diagram_code_in_child_process child = .error e) ↔
      (child.exitCode ≠ 0 ∨ child.stdoutJson = none ∨
        ∃ v, child.stdoutJson = some v ∧
          (v.getKey "code" = none ∨ v.getKey "imported_modules" = none))) ∧
    (∀ v c m, child.exitCode = 0 → child.stdoutJson = some v →
      v.getKey "code" = some c → v.getKey "imported_modules" = some m →
      generate_diagram_code_in_child_process child = .ok (c, m)) := by
  obtain ⟨exitCode, stdoutJson⟩ := child
  unfold generate_diagram_code_in_child_process
  dsimp only
  by_cases he : exitCode ≠ 0
  · rw [if_pos he]
    exact ⟨⟨fun _ => Or.inl he, fun _ => ⟨_, rfl⟩⟩, fun v c m h0 => absurd h0 he⟩
  · rw [if_neg he]
    push_neg at he
    subst he
    cases stdoutJson with
    | none =>
      refine ⟨⟨fun _ => Or.inr (Or.inl rfl), fun _ => ⟨_, rfl⟩⟩, ?_⟩
      intro v c m _ hv
      cases hv
    | some v =>
      dsimp only
      cases hc : v.getKey "code" with
      | none =>
        refine ⟨⟨fun _ => Or.inr (Or.inr ⟨v, rfl, Or.inl hc⟩), fun _ => ⟨_, rfl⟩⟩, ?_⟩
        intro v' c m _ hv hc'
        cases hv
        rw [hc] at hc'
        cases hc'
      | some code =>
        cases hm : v.getKey "imported_modules" with
        | none =>
          refine ⟨⟨fun _ => Or.inr (Or.inr ⟨v, rfl, Or.inr hm⟩), fun _ => ⟨_, rfl⟩⟩, ?_⟩
          intro v' c m _ hv _ hm'
          cases hv
          rw [hm] at hm'
          cases hm'
        | some modules =>
          refine ⟨⟨fun hex => ?_, fun hor => ?_⟩, ?_⟩
          · obtain ⟨e, hee⟩ := hex
            exact Except.noConfusion hee
          · rcases hor with h0 | hn | ⟨v', hv', hk⟩
            · exact absurd rfl h0
            · cases hn
            · cases hv'
              rcases hk with hk | hk
              · rw [hc] at hk
                cases hk
              · rw [hm] at hk
                cases hk
          · intro v' c m _ hv hc' hm'
            cases hv
            rw [hc] at hc'
            cases hc'
            rw [hm] at hm'
            cases hm'
            rfl

/-- C3 witness for the amended claim: exit code 2 is an error, and a parsed
output carrying both keys succeeds. -/
theorem generate_error_iff_witness :
    (∃ e, generate_diagram_code_in_child_process ⟨2, none⟩ = .error e) ∧
    generate_diagram_code_in_child_process
        ⟨0, some (.obj [("code", .str "c"), ("imported_modules", .arr [])])⟩ =
      .ok (.str "c", .arr []) :=
  ⟨(generate_error_iff ⟨2, none⟩).1.mpr (Or.inl (by decide)),
   (generate_error_iff
      ⟨0, some (.obj [("code", .str "c"), ("imported_modules", .arr [])])⟩).2
      _ _ _ rfl rfl rfl rfl⟩

/-- C10: `generate_diagram_code_in_child_process` checks nothing beyond key
presence: whatever parsed object the child emits, as long as it has entries
for `code` and `imported_modules` the call succeeds and returns exactly those
two stored values — whatever their types — and any further fields are simply
ignored. -/
theorem generate_no_schema_validation (fields : List (String × JValue))
    (c m : JValue) (hc : jAssoc fields "code" = some c)
    (hm : jAssoc fields "imported_modules" = some m) :
    generate_diagram_code_in_child_process ⟨0, some (.obj fields)⟩ = .ok (c, m) := by
  unfold generate_diagram_code_in_child_process
  simp only [JValue.getKey, hc, hm]
  rw [if_neg (by simp)]

/-- C10 witness: an object with an extra field, a numeric code and a boolean
module list is accepted unchanged. -/
theorem generate_no_schema_validation_witness :
    jAssoc [("extra", JValue.null), ("code", JValue.num 5),
      ("imported_modules", JValue.bool true)] "code" = some (JValue.num 5) ∧
    jAssoc [("extra", JValue.null), ("code", JValue.num 5),
      ("imported_modules", JValue.bool true)] "imported_modules" =
      some (JValue.bool true) ∧
    generate_diagram_code_in_child_process
        ⟨0, some (.obj [("extra", JValue.null), ("code", JValue.num 5),
          ("imported_modules", JValue.bool true)])⟩ =
      .ok (JValue.num 5, JValue.bool true) :=
  ⟨rfl, rfl, generate_no_schema_validation _ _ _ rfl rfl⟩

/-- Modelled from the spec: the generation subprocess (`pystructurizr.generator`,
invoked by `generate_diagram_code_in_child_process` but not present under
`src/`) emits on its standard output a single JSON object with a `code`
string and an `imported_modules` list of module identifier strings that
includes at least the view module itself (spec §6 and §8). -/
def generatorStdout (view code : String) (extraModules : List String) : JValue :=
  .obj [("code", .str code),
        ("imported_modules", .arr (.str view :: extraModules.map .str))]

/-- C4: when the child process is the generation subprocess and it exits
successfully, `generate_diagram_code_in_child_process` returns a code blob
together with a non-empty module list that contains the view module itself. -/
theorem generate_includes_view_module (view code : String)
    (extras : List String) (child : ChildResult)
    (hexit : child.exitCode = 0)
    (hout : child.stdoutJson = some (generatorStdout view code extras)) :
    ∃ ms, generate_diagram_code_in_child_process child =
        .ok (.str code, .arr ms) ∧ JValue.str view ∈ ms ∧ ms ≠ [] := by
  obtain ⟨ec, so⟩ := child
  dsimp only at hexit hout
  subst hexit
  subst hout
  exact ⟨.str view :: extras.map .str, rfl,
    List.mem_cons_self _ _, by simp⟩

/-- C4 witness: the generator's output for `examples.single_file_example`
with no further imports is accepted and reports the view module. -/
theorem generate_includes_view_module_witness :
    (⟨0, some (generatorStdout "examples.single_file_example" "workspace" [])⟩ :
        ChildResult).exitCode = 0 ∧
    ∃ ms, generate_diagram_code_in_child_process
        ⟨0, some (generatorStdout "examples.single_file_example" "workspace" [])⟩ =
          .ok (.str "workspace", .arr ms) ∧
        JValue.str "examples.single_file_example" ∈ ms ∧ ms ≠ [] :=
  ⟨rfl, generate_includes_view_module "examples.single_file_example" "workspace"
    [] _ rfl rfl⟩

/-- C5: the place step moves — does not copy — the rendered artifact: when
the artifact exists in the temporary work area and is distinct from the
resolved destination path, then after `placeArtifact` the artifact's content
sits at the resolved path and the temporary copy is gone. -/
theorem placeArtifact_moves (fs : FS) (view : String) (artifact dest : FPath)
    (c : String) (hread : fs.readFile artifact = some c)
    (hne : artifact ≠ (resolveDest fs view dest).2) :
    (placeArtifact fs view artifact dest).1.readFile
        (placeArtifact fs view artifact dest).2 = some c ∧
    (placeArtifact fs view artifact dest).1.readFile artifact = none := by
  unfold placeArtifact
  have hread' : (fs.mkdirParents (resolveDest fs view dest).1).readFile artifact
      = some c := hread
  exact FS.move_spec _ artifact _ c hread' hne

/-- C5 witness: moving `tmp/diagram.svg` to the fresh destination `out/`
places the content at `out/v.svg` and removes the temporary copy. -/
theorem placeArtifact_moves_witness :
    (FS.readFile ⟨[(["tmp", "diagram.svg"], "svg-bytes")], [["tmp"]]⟩
        ["tmp", "diagram.svg"] = some "svg-bytes") ∧
    (["tmp", "diagram.svg"] ≠
      (resolveDest ⟨[(["tmp", "diagram.svg"], "svg-bytes")], [["tmp"]]⟩ "v" ["out"]).2) ∧
    ((placeArtifact ⟨[(["tmp", "diagram.svg"], "svg-bytes")], [["tmp"]]⟩
        "v" ["tmp", "diagram.svg"] ["out"]).1.readFile
        (placeArtifact ⟨[(["tmp", "diagram.svg"], "svg-bytes")], [["tmp"]]⟩
          "v" ["tmp", "diagram.svg"] ["out"]).2 = some "svg-bytes" ∧
      (placeArtifact ⟨[(["tmp", "diagram.svg"], "svg-bytes")], [["tmp"]]⟩
        "v" ["tmp", "diagram.svg"] ["out"]).1.readFile
        ["tmp", "diagram.svg"] = none) :=
  ⟨rfl, by decide,
    placeArtifact_moves ⟨[(["tmp", "diagram.svg"], "svg-bytes")], [["tmp"]]⟩
      "v" ["tmp", "diagram.svg"] ["out"] "svg-bytes" rfl (by decide)⟩

/-- C6: when the destination is not an existing regular file, the place step
creates the destination directory chain recursively (every ancestor of the
destination exists afterwards), directory creation is idempotent — running
`mkdir(parents=True, exist_ok=True)` on a filesystem where the chain already
exists succeeds and changes nothing — and the artifact lands inside the
destination directory. -/
theorem placeArtifact_creates_directory_chain (fs : FS) (view : String)
    (artifact dest : FPath) (c : String)
    (hnotfile : fs.isFile dest = false)
    (hread : fs.readFile artifact = some c)
    (hne : artifact ≠ dest ++ [dotsToUnderscores view ++ ".svg"]) :
    (∀ d ∈ ancestors dest,
      (placeArtifact fs view artifact dest).1.dirExists d = true) ∧
    FS.mkdirParents (fs.mkdirParents dest) dest = fs.mkdirParents dest ∧
    (placeArtifact fs view artifact dest).1.readFile
      (dest ++ [dotsToUnderscores view ++ ".svg"]) = some c := by
  have hres : resolveDest fs view dest =
      (dest, dest ++ [dotsToUnderscores view ++ ".svg"]) := by
    unfold resolveDest
    rw [if_neg (by simp [hnotfile])]
  unfold placeArtifact
  rw [hres]
  refine ⟨?_, FS.mkdirParents_idem fs dest, ?_⟩
  · intro d hd
    rw [FS.dirExists_move]
    exact FS.dirExists_mkdirParents fs dest d hd
  · have hread' : (fs.mkdirParents dest).readFile artifact = some c := hread
    exact (FS.move_spec _ artifact _ c hread' hne).1

/-- C6 witness: with the nested destination `a/b/c/` absent, the whole chain
`a`, `a/b`, `a/b/c` is created and the artifact lands inside it. -/
theorem placeArtifact_creates_directory_chain_witness :
    (FS.isFile ⟨[(["tmp", "diagram.svg"], "svg-bytes")], [["tmp"]]⟩
        ["a", "b", "c"] = false) ∧
    ((∀ d ∈ ancestors ["a", "b", "c"],
        (placeArtifact ⟨[(["tmp", "diagram.svg"], "svg-bytes")], [["tmp"]]⟩
          "v" ["tmp", "diagram.svg"] ["a", "b", "c"]).1.dirExists d = true) ∧
      FS.mkdirParents
        (FS.mkdirParents ⟨[(["tmp", "diagram.svg"], "svg-bytes")], [["tmp"]]⟩
          ["a", "b", "c"]) ["a", "b", "c"] =
        FS.mkdirParents ⟨[(["tmp", "diagram.svg"], "svg-bytes")], [["tmp"]]⟩
          ["a", "b", "c"] ∧
      (placeArtifact ⟨[(["tmp", "diagram.svg"], "svg-bytes")], [["tmp"]]⟩
        "v" ["tmp", "diagram.svg"] ["a", "b", "c"]).1.readFile
        (["a", "b", "c"] ++ [dotsToUnderscores "v" ++ ".svg"]) = some "svg-bytes") :=
  ⟨rfl, placeArtifact_creates_directory_chain
    ⟨[(["tmp", "diagram.svg"], "svg-bytes")], [["tmp"]]⟩
    "v" ["tmp", "diagram.svg"] ["a", "b", "c"] "svg-bytes" rfl rfl (by decide)⟩

/-- C7: destination resolution is idempotent on an existing-file destination:
when the destination exists as a regular file it resolves to itself (with its
parent as base directory), and resolving again after the place step — which
replaced that file — yields the same resolved pair. -/
theorem resolveDest_idempotent_on_file (fs : FS) (view : String)
    (artifact dest : FPath) (c : String)
    (hfile : fs.isFile dest = true)
    (hread : fs.readFile artifact = some c)
    (hne : artifact ≠ dest) :
    resolveDest fs view dest = (dest.dropLast, dest) ∧
    resolveDest (placeArtifact fs view artifact dest).1 view dest =
      resolveDest fs view dest := by
  have h1 : resolveDest fs view dest = (dest.dropLast, dest) := by
    unfold resolveDest
    rw [if_pos hfile]
  refine ⟨h1, ?_⟩
  have hread' : (fs.mkdirParents dest.dropLast).readFile artifact = some c := hread
  have hmove := FS.move_spec (fs.mkdirParents dest.dropLast) artifact dest c hread' hne
  have hfile2 : (placeArtifact fs view artifact dest).1.isFile dest = true := by
    unfold placeArtifact
    rw [h1]
    unfold FS.isFile
    rw [hmove.1]
    rfl
  rw [h1]
  unfold resolveDest
  rw [if_pos hfile2]

/-- C7 witness: with destination `out/d.svg` existing as a regular file, both
resolutions — before and after the place step — give
`(out, out/d.svg)`. -/
theorem resolveDest_idempotent_on_file_witness :
    (FS.isFile ⟨[(["out", "d.svg"], "old"), (["tmp", "diagram.svg"], "new")], [["out"], ["tmp"]]⟩
        ["out", "d.svg"] = true) ∧
    (resolveDest ⟨[(["out", "d.svg"], "old"), (["tmp", "diagram.svg"], "new")], [["out"], ["tmp"]]⟩
        "v" ["out", "d.svg"] = (["out"], ["out", "d.svg"]) ∧
      resolveDest
        (placeArtifact ⟨[(["out", "d.svg"], "old"), (["tmp", "diagram.svg"], "new")], [["out"], ["tmp"]]⟩
          "v" ["tmp", "diagram.svg"] ["out", "d.svg"]).1 "v" ["out", "d.svg"] =
      resolveDest ⟨[(["out", "d.svg"], "old"), (["tmp", "diagram.svg"], "new")], [["out"], ["tmp"]]⟩
        "v" ["out", "d.svg"]) :=
  ⟨rfl, resolveDest_idempotent_on_file
    ⟨[(["out", "d.svg"], "old"), (["tmp", "diagram.svg"], "new")], [["out"], ["tmp"]]⟩
    "v" ["tmp", "diagram.svg"] ["out", "d.svg"] "new" rfl rfl (by decide)⟩

/-- C1: for every view identifier and every destination that is not currently
an existing regular file (and does not lie inside the fresh temporary
directory), a successful build resolves the final output to
`destination/<view with dots replaced by underscores>.svg`, records it for
chained commands, and prints exactly that path. -/
theorem build_directory_destination (view filePath : String)
    (child : ChildResult) (resp : HttpResponse) (tmp : FPath) (fs : FS)
    (cm : JValue × JValue)
    (hgen : generate_diagram_code_in_child_process child = .ok cm)
    (hstatus : resp.status = 200)
    (hnotfile : fs.isFile (parsePath filePath) = false)
    (hfresh : underDir tmp (parsePath filePath) = false) :
    (build view filePath child resp tmp fs).printed =
      [renderPath (parsePath filePath ++ [dotsToUnderscores view ++ ".svg"])] ∧
    (build view filePath child resp tmp fs).ctxObj =
      [("svg_file_path",
        renderPath (parsePath filePath ++ [dotsToUnderscores view ++ ".svg"]))] ∧
    (build view filePath child resp tmp fs).err = none := by
  have hsvg : generate_svg resp tmp (fs.mkdirParents tmp) =
      { printed := [],
        fs := (fs.mkdirParents tmp).writeFile (tmp ++ ["diagram.svg"]) resp.body,
        result := .ok (tmp ++ ["diagram.svg"]) } := by
    unfold generate_svg
    rw [if_neg (by simp [hstatus])]
  have hne : tmp ++ ["diagram.svg"] ≠ parsePath filePath := by
    intro hh
    rw [← hh, underDir_append] at hfresh
    cases hfresh
  have hnf2 : ((fs.mkdirParents tmp).writeFile (tmp ++ ["diagram.svg"]) resp.body).isFile
      (parsePath filePath) = false := by
    rw [FS.isFile_writeFile, if_neg hne, FS.isFile_mkdirParents]
    exact hnotfile
  have hres : resolveDest
      ((fs.mkdirParents tmp).writeFile (tmp ++ ["diagram.svg"]) resp.body)
      view (parsePath filePath) =
      (parsePath filePath,
        parsePath filePath ++ [dotsToUnderscores view ++ ".svg"]) := by
    unfold resolveDest
    rw [if_neg (by simp [hnf2])]
  simp [build, buildAsyncBehavior, hgen, hsvg, placeArtifact, hres]

/-- C1 witness: the concrete scenario — building
`examples.single_file_example` into `out/` after a successful render
produces and prints `out/examples_single_file_example.svg`. -/
theorem build_directory_destination_witness :
    (build "examples.single_file_example" "out/"
        ⟨0, some (.obj [("code", .str "workspace"),
          ("imported_modules", .arr [.str "examples.single_file_example"])])⟩
        ⟨200, "<svg/>"⟩ ["tmp123"] ⟨[], []⟩).printed =
      ["out/examples_single_file_example.svg"] ∧
    (build "examples.single_file_example" "out/"
        ⟨0, some (.obj [("code", .str "workspace"),
          ("imported_modules", .arr [.str "examples.single_file_example"])])⟩
        ⟨200, "<svg/>"⟩ ["tmp123"] ⟨[], []⟩).err = none := by
  have h := build_directory_destination "examples.single_file_example" "out/"
    ⟨0, some (.obj [("code", .str "workspace"),
      ("imported_modules", .arr [.str "examples.single_file_example"])])⟩
    ⟨200, "<svg/>"⟩ ["tmp123"] ⟨[], []⟩
    (.str "workspace", .arr [.str "examples.single_file_example"])
    rfl rfl rfl (by decide)
  exact ⟨h.1.trans (by decide), h.2.2⟩

/-- C8: the temporary working directory exists once the pipeline has acquired
it, and both `build` and `dev` remove it — and everything beneath it — on
every exit path: after any run, successful or aborted, no file and no
directory at or below the temporary directory remains. -/
theorem tempdir_scoped_lifecycle (view filePath : String) (child : ChildResult)
    (resp : HttpResponse) (tmp : FPath) (fs : FS) (indexHtml : String)
    (cycles : List (ChildResult × HttpResponse)) (htmp : tmp ≠ []) :
    (FS.mkdirParents fs tmp).dirExists tmp = true ∧
    (build view filePath child resp tmp fs).fs.tmpCleared tmp = true ∧
    (dev indexHtml cycles tmp fs).1.tmpCleared tmp = true := by
  refine ⟨FS.dirExists_mkdirParents fs tmp tmp (self_mem_ancestors tmp htmp), ?_, ?_⟩
  · unfold build
    exact FS.tmpCleared_removeTree _ tmp
  · unfold dev
    exact FS.tmpCleared_removeTree _ tmp

/-- C8 witness: a failing build (child exit code 1) and a dev run whose second
cycle hits a 500 response both leave nothing under the temporary
directory, which did exist while the pipeline ran. -/
theorem tempdir_scoped_lifecycle_witness :
    (["tmp123"] : FPath) ≠ [] ∧
    (FS.mkdirParents ⟨[], []⟩ ["tmp123"]).dirExists ["tmp123"] = true ∧
    (build "v" "out/" ⟨1, none⟩ ⟨200, "<svg/>"⟩ ["tmp123"] ⟨[], []⟩).fs.tmpCleared
      ["tmp123"] = true ∧
    (dev "<html/>"
        [(⟨0, some (.obj [("code", .str "c"), ("imported_modules", .arr [])])⟩,
          ⟨200, "<svg/>"⟩),
         (⟨0, some (.obj [("code", .str "c"), ("imported_modules", .arr [])])⟩,
          ⟨500, "bad syntax"⟩)]
        ["tmp123"] ⟨[], []⟩).1.tmpCleared ["tmp123"] = true := by
  have h := tempdir_scoped_lifecycle "v" "out/" ⟨1, none⟩ ⟨200, "<svg/>"⟩
    ["tmp123"] ⟨[], []⟩ "<html/>"
    [(⟨0, some (.obj [("code", .str "c"), ("imported_modules", .arr [])])⟩,
      ⟨200, "<svg/>"⟩),
     (⟨0, some (.obj [("code", .str "c"), ("imported_modules", .arr [])])⟩,
      ⟨500, "bad syntax"⟩)]
    (by decide)
  exact ⟨by decide, h.1, h.2.1, h.2.2⟩

/-- C9: the chained upload step fails fast whenever no prior build step
stored an output path in the chain context, and after a successful build it
reads exactly the path the build step stored — which is also the path the
build step printed — and hands it unchanged to the cloud-storage uploader. -/
theorem upload_reads_build_context (view filePath : String)
    (child : ChildResult) (resp : HttpResponse) (tmp : FPath) (fs : FS)
    (uploadFile : String → String) :
    (∀ ctxObj : List (String × String), ctxObj.lookup "svg_file_path" = none →
      ∃ e, upload ctxObj uploadFile = .error e) ∧
    ((build view filePath child resp tmp fs).err = none →
      ∃ p, (build view filePath child resp tmp fs).ctxObj = [("svg_file_path", p)] ∧
        (build view filePath child resp tmp fs).printed.getLast? = some p ∧
        upload (build view filePath child resp tmp fs).ctxObj uploadFile =
          .ok (uploadFile p)) := by
  constructor
  · intro ctxObj h
    unfold upload
    rw [h]
    exact ⟨_, rfl⟩
  · intro herr
    cases hg : generate_diagram_code_in_child_process child with
    | error e =>
      simp only [build, buildAsyncBehavior, hg] at herr
      exact Option.noConfusion herr
    | ok cm =>
      simp only [build, buildAsyncBehavior, hg] at herr ⊢
      cases hr : (generate_svg resp tmp (fs.mkdirParents tmp)).result with
      | error msg =>
        simp only [hr] at herr
        exact Option.noConfusion herr
      | ok tempSvgFilePath =>
        simp only [hr]
        refine ⟨renderPath (placeArtifact (generate_svg resp tmp (fs.mkdirParents tmp)).fs
          view tempSvgFilePath (parsePath filePath)).2, rfl, ?_, rfl⟩
        simp

/-- C9 witness: uploading after the concrete successful build of C1 hands
`out/examples_single_file_example.svg` to the uploader; with an empty chain
context the upload step fails instead. -/
theorem upload_reads_build_context_witness :
    (∃ e, upload [] (fun p => "url://" ++ p) = .error e) ∧
    (∃ p, (build "examples.single_file_example" "out/"
        ⟨0, some (.obj [("code", .str "workspace"),
          ("imported_modules", .arr [.str "examples.single_file_example"])])⟩
        ⟨200, "<svg/>"⟩ ["tmp123"] ⟨[], []⟩).ctxObj = [("svg_file_path", p)] ∧
      (build "examples.single_file_example" "out/"
        ⟨0, some (.obj [("code", .str "workspace"),
          ("imported_modules", .arr [.str "examples.single_file_example"])])⟩
        ⟨200, "<svg/>"⟩ ["tmp123"] ⟨[], []⟩).printed.getLast? = some p ∧
      upload (build "examples.single_file_example" "out/"
        ⟨0, some (.obj [("code", .str "workspace"),
          ("imported_modules", .arr [.str "examples.single_file_example"])])⟩
        ⟨200, "<svg/>"⟩ ["tmp123"] ⟨[], []⟩).ctxObj (fun p => "url://" ++ p) =
        .ok ((fun p => "url://" ++ p) p)) :=
  ⟨(upload_reads_build_context "examples.single_file_example" "out/"
      ⟨0, some (.obj [("code", .str "workspace"),
        ("imported_modules", .arr [.str "examples.single_file_example"])])⟩
      ⟨200, "<svg/>"⟩ ["tmp123"] ⟨[], []⟩ (fun p => "url://" ++ p)).1 [] rfl,
   (upload_reads_build_context "examples.single_file_example" "out/"
      ⟨0, some (.obj [("code", .str "workspace"),
        ("imported_modules", .arr [.str "examples.single_file_example"])])⟩
      ⟨200, "<svg/>"⟩ ["tmp123"] ⟨[], []⟩ (fun p => "url://" ++ p)).2 rfl⟩

end Pystructurizr
